import Mathlib

/-!
Verification of the token-gated MCP gateway's authentication subsystem.

This file gives a shallow embedding of the TypeScript modules implementing
the subsystem: the token manager (`issueTokenPair`, `refreshAccessToken`,
`revokeToken`, `isTokenRevoked` over the in-memory `refreshTokenStore` and
`tokenBlacklist`), the authorization gate (`evmAuthMiddleware`), the static
and dynamic JWT issuers (`issueJwt`, `issueDynamicJwt`), the
express-rate-limit fixed-window limiters, and the middleware chains that
`startServer` registers per route.  Theorems about these definitions settle
the spec's claims.

Modelling conventions:
* A signed JWT is a `Token` record; the signature is modelled by storing the
  signing secret inside the token, and `jwtVerify` compares it (jsonwebtoken
  verifies the signature and then raises `TokenExpiredError` once the clock
  is at or past `exp`, so a token is accepted exactly at instants strictly
  before `exp`).
* `generateJti` draws 16 random bytes and is documented to produce a unique
  id; the embedding realizes that uniqueness with a counter `nextJti` held in
  the token-manager state.  Real `jti` values are nonempty hex strings and
  hence always truthy in JS, so a token's optional `jti` claim is modelled as
  `Option Nat`, presence coinciding with truthiness.
* The oracle (`evmAuth.balanceOf`) is an explicit function parameter
  returning a balance or an oracle failure.
-/

deriving instance DecidableEq for Except

namespace NANDA

/-- Kind of a JWT, the `type` claim discriminating the two credential kinds. -/
inductive TokenType
  | access
  | refresh
deriving DecidableEq, Repr

/-- Shallow embedding of a signed JWT as minted by `issueTokenPair`: subject
address, granted token id, optional `jti` claim, kind, issued-at, expiry,
the optional `contract` and `issuedFor` claims added by the dynamic issuer,
and the signing secret standing in for the signature. -/
structure Token where
  sub : String
  tokenId : Int
  jti : Option Nat
  type : TokenType
  iat : Nat
  exp : Nat
  contract : Option String
  issuedFor : Option String
  secret : String
deriving DecidableEq, Repr

/-- Per-refresh-token record kept in the store (`RefreshTokenData`). -/
structure RefreshTokenData where
  address : String
  tokenId : Int
  jti : Nat
  createdAt : Nat
deriving DecidableEq, Repr

/-- Result of `issueTokenPair` (`TokenPair`). -/
structure TokenPair where
  accessToken : Token
  refreshToken : Token
  accessTokenExp : Nat
  refreshTokenExp : Nat
  jti : Nat
deriving DecidableEq, Repr

/-- Module state of the token manager: the refresh-token store (a `Map` keyed
by the serialized refresh token, embedded as an association list with map
semantics), the revocation blacklist of `jti` values, and the counter
realizing `generateJti`'s supply of unique ids. -/
structure TMState where
  refreshTokenStore : List (Token × RefreshTokenData)
  tokenBlacklist : List Nat
  nextJti : Nat
deriving DecidableEq, Repr

/-- `Map.get` on the refresh-token store. -/
def storeGet : List (Token × RefreshTokenData) → Token → Option RefreshTokenData
  | [], _ => none
  | e :: rest, k => if e.1 = k then some e.2 else storeGet rest k

/-- `Map.delete` on the refresh-token store. -/
def storeDelete : List (Token × RefreshTokenData) → Token → List (Token × RefreshTokenData)
  | [], _ => []
  | e :: rest, k => if e.1 = k then storeDelete rest k else e :: storeDelete rest k

/-- `Map.set` on the refresh-token store. -/
def storeSet (store : List (Token × RefreshTokenData)) (k : Token) (v : RefreshTokenData) :
    List (Token × RefreshTokenData) :=
  (k, v) :: storeDelete store k

/-- Failure of `jwt.verify`: bad signature (`JsonWebTokenError`) or expiry
(`TokenExpiredError`). -/
inductive VerifyError
  | invalidSignature
  | tokenExpired
deriving DecidableEq, Repr

/-- Model of `jwt.verify token secret` at clock `now`: the signature is checked
first, then the token is rejected from its expiry instant on. -/
def jwtVerify (t : Token) (secret : String) (now : Nat) : Option VerifyError :=
  if t.secret ≠ secret then some .invalidSignature
  else if t.exp ≤ now then some .tokenExpired
  else none

/-- TTL configuration, `ACCESS_TOKEN_EXPIRY` / `REFRESH_TOKEN_EXPIRY`
(env-configurable durations, here in seconds). -/
structure TokenConfig where
  accessTtl : Nat
  refreshTtl : Nat
deriving DecidableEq, Repr

/-- Defaults: "15m" for the access token and "7d" for the refresh token. -/
def defaultTokenConfig : TokenConfig :=
  { accessTtl := 15 * 60, refreshTtl := 7 * 24 * 60 * 60 }

/-- Additional claims spread into both minted tokens; the dynamic issuer
passes `contract` and `issuedFor`, every other caller passes none. -/
structure AdditionalClaims where
  contract : Option String := none
  issuedFor : Option String := none
deriving DecidableEq, Repr

/-- `issueTokenPair`: mints a fresh `jti`, signs sibling access and refresh
tokens sharing it (the refresh token differing only in kind and TTL), records
the refresh token in the store, and returns both with their expiries. -/
def issueTokenPair (cfg : TokenConfig) (address : String) (tokenId : Int)
    (jwtSecret : String) (additionalClaims : AdditionalClaims) (now : Nat)
    (st : TMState) : TokenPair × TMState :=
  let jti := st.nextJti
  let accessToken : Token :=
    { sub := address, tokenId := tokenId, jti := some jti, type := .access,
      iat := now, exp := now + cfg.accessTtl,
      contract := additionalClaims.contract, issuedFor := additionalClaims.issuedFor,
      secret := jwtSecret }
  let refreshToken : Token :=
    { accessToken with type := .refresh, exp := now + cfg.refreshTtl }
  let pair : TokenPair :=
    { accessToken := accessToken, refreshToken := refreshToken,
      accessTokenExp := now + cfg.accessTtl, refreshTokenExp := now + cfg.refreshTtl,
      jti := jti }
  let st' : TMState :=
    { st with
      refreshTokenStore := storeSet st.refreshTokenStore refreshToken
        { address := address, tokenId := tokenId, jti := jti, createdAt := now },
      nextJti := st.nextJti + 1 }
  (pair, st')

/-- `revokeToken`: adds `jti` to the blacklist and removes every store entry
whose record carries that `jti`. -/
def revokeToken (jti : Nat) (st : TMState) : TMState :=
  { st with
    tokenBlacklist := jti :: st.tokenBlacklist,
    refreshTokenStore := st.refreshTokenStore.filter (fun e => decide (e.2.jti ≠ jti)) }

/-- `isTokenRevoked`: blacklist membership. -/
def isTokenRevoked (jti : Nat) (st : TMState) : Bool :=
  decide (jti ∈ st.tokenBlacklist)

/-- Failure modes of `refreshAccessToken`, one per thrown error: the two
`jwt.verify` failures, "Invalid token type", "Refresh token not found" and
"Token has been revoked". -/
inductive RefreshError
  | invalidSignature
  | tokenExpired
  | invalidTokenType
  | refreshTokenNotFound
  | tokenRevoked
deriving DecidableEq, Repr

/-- `refreshAccessToken`: verifies the refresh token, checks its kind, looks
it up in the store, rejects (and deletes the record) if its `jti` is
blacklisted, and otherwise revokes the old `jti`, deletes the record and
mints a brand-new pair from the stored address and token id — note that the
new pair is minted with no additional claims. -/
def refreshAccessToken (refreshToken : Token) (jwtSecret : String)
    (cfg : TokenConfig) (now : Nat) (st : TMState) :
    Except RefreshError TokenPair × TMState :=
  match jwtVerify refreshToken jwtSecret now with
  | some .invalidSignature => (.error .invalidSignature, st)
  | some .tokenExpired => (.error .tokenExpired, st)
  | none =>
    if refreshToken.type ≠ TokenType.refresh then (.error .invalidTokenType, st)
    else
      match storeGet st.refreshTokenStore refreshToken with
      | none => (.error .refreshTokenNotFound, st)
      | some storedData =>
        if storedData.jti ∈ st.tokenBlacklist then
          (.error .tokenRevoked,
            { st with refreshTokenStore := storeDelete st.refreshTokenStore refreshToken })
        else
          let st1 := revokeToken storedData.jti st
          let st2 :=
            { st1 with refreshTokenStore := storeDelete st1.refreshTokenStore refreshToken }
          let r := issueTokenPair cfg storedData.address storedData.tokenId jwtSecret {} now st2
          (.ok r.1, r.2)

/-- Outcome of the authorization gate: the request is admitted with the JWT
payload attached, or rejected with an HTTP status and error message. -/
inductive GateResult
  | admitted (payload : Token)
  | rejected (status : Nat) (error : String)
deriving DecidableEq, Repr

/-- Whether a gate outcome admits the request. -/
def isAdmitted : GateResult → Bool
  | .admitted _ => true
  | .rejected _ _ => false

/-- Truthiness of an optional string claim (JS: a missing claim and the empty
string are falsy, every other string is truthy). -/
def truthyStr : Option String → Bool
  | none => false
  | some s => s != ""

/-- Truthiness of the optional `jti` claim followed by the revocation check,
`payload.jti && isTokenRevoked(payload.jti)`. -/
def jtiRevoked (jti : Option Nat) (st : TMState) : Bool :=
  match jti with
  | some j => isTokenRevoked j st
  | none => false

/-- `evmAuthMiddleware`: requires a bearer token, verifies it, rejects
non-access kinds, rejects blacklisted `jti`s, then either accepts any token
carrying a (truthy) `contract` claim or, for tokens without one, insists the
embedded token id equals the process-wide required token id. -/
def evmAuthMiddleware (authHeader : Option Token) (jwtSecret : String)
    (requiredTokenId : Int) (st : TMState) (now : Nat) : GateResult :=
  match authHeader with
  | none => .rejected 401 "Missing Authorization header"
  | some payload =>
    match jwtVerify payload jwtSecret now with
    | some .tokenExpired => .rejected 401 "Token expired"
    | some .invalidSignature => .rejected 401 "Invalid token"
    | none =>
      if payload.type ≠ TokenType.access then .rejected 401 "Invalid token type"
      else if jtiRevoked payload.jti st then .rejected 401 "Token has been revoked"
      else if truthyStr payload.contract then .admitted payload
      else if payload.tokenId ≠ requiredTokenId then .rejected 401 "Invalid tokenId in JWT"
      else .admitted payload

/-- Oracle failure modes of `evmAuth.balanceOf`. -/
inductive OracleError
  | oracleUnavailable
  | invalidAddress
deriving DecidableEq, Repr

/-- Response shape of both issuers. -/
structure IssueResponse where
  accessToken : Token
  refreshToken : Token
  expiresIn : Nat
  refreshExpiresIn : Nat
deriving DecidableEq, Repr

/-- Failure modes of the static issuer `issueJwt`: the "does not hold token"
error or a propagated oracle failure.  The static path performs no syntactic
validation of the address, so it has no invalid-identity outcome. -/
inductive StaticIssueError
  | ownershipNotSatisfied (address : String) (tokenId : Int)
  | oracle (e : OracleError)
deriving DecidableEq, Repr

/-- `issueJwt`: queries the oracle with the process-wide required token id and
the caller-supplied address exactly as given, fails when the balance is zero,
and otherwise mints and records a pair with no additional claims. -/
def issueJwt (balanceOf : String → Int → Except OracleError Nat) (address : String)
    (requiredTokenId : Int) (jwtSecret : String) (cfg : TokenConfig) (now : Nat)
    (st : TMState) : Except StaticIssueError IssueResponse × TMState :=
  match balanceOf address requiredTokenId with
  | .error e => (.error (.oracle e), st)
  | .ok balance =>
    if balance = 0 then (.error (.ownershipNotSatisfied address requiredTokenId), st)
    else
      let r := issueTokenPair cfg address requiredTokenId jwtSecret {} now st
      (.ok { accessToken := r.1.accessToken, refreshToken := r.1.refreshToken,
             expiresIn := r.1.accessTokenExp, refreshExpiresIn := r.1.refreshTokenExp },
        r.2)

/-- Model of `ethers.isAddress`: "0x" followed by 40 hexadecimal digits
(checksum-case details elided). -/
def isHexDigit (c : Char) : Bool :=
  c.isDigit || decide ('a' ≤ c ∧ c ≤ 'f') || decide ('A' ≤ c ∧ c ≤ 'F')

/-- Syntactic well-formedness of a blockchain address. -/
def isAddress (s : String) : Bool :=
  match s.data with
  | '0' :: 'x' :: rest => (rest.length == 40) && rest.all isHexDigit
  | _ => false

/-- Request body of the dynamic issuer. -/
structure DynamicAuthRequest where
  wallet : String
  contract : String
  tokenId : Int
deriving DecidableEq, Repr

/-- Failure modes of `issueDynamicJwt`, one per thrown error: the three input
validation errors, the "does not hold token" error, and a propagated oracle
failure. -/
inductive DynamicIssueError
  | invalidWalletAddress
  | invalidContractAddress
  | invalidTokenIdValue
  | ownershipNotSatisfied (wallet : String) (tokenId : Int) (contract : String)
  | oracle (e : OracleError)
deriving DecidableEq, Repr

/-- `issueDynamicJwt`: validates the wallet and contract addresses and the
token id (the `Number.isInteger` half of the check is vacuous for the `Int`
embedding) before any oracle query, checks the balance on the supplied
contract, and mints a pair embedding the contract as a claim. -/
def issueDynamicJwt (balanceOfOn : String → String → Int → Except OracleError Nat)
    (authRequest : DynamicAuthRequest) (jwtSecret : String) (cfg : TokenConfig)
    (now : Nat) (st : TMState) : Except DynamicIssueError IssueResponse × TMState :=
  if !(isAddress authRequest.wallet) then (.error .invalidWalletAddress, st)
  else if !(isAddress authRequest.contract) then (.error .invalidContractAddress, st)
  else if authRequest.tokenId < 0 then (.error .invalidTokenIdValue, st)
  else
    match balanceOfOn authRequest.contract authRequest.wallet authRequest.tokenId with
    | .error e => (.error (.oracle e), st)
    | .ok balance =>
      if balance = 0 then
        (.error (.ownershipNotSatisfied authRequest.wallet authRequest.tokenId
            authRequest.contract), st)
      else
        let r := issueTokenPair cfg authRequest.wallet authRequest.tokenId jwtSecret
          { contract := some authRequest.contract,
            issuedFor := some "Starbucks Premium MCP" } now st
        (.ok { accessToken := r.1.accessToken, refreshToken := r.1.refreshToken,
               expiresIn := r.1.accessTokenExp, refreshExpiresIn := r.1.refreshTokenExp },
          r.2)

/-- Configuration of one express-rate-limit limiter. -/
structure RateLimitConfig where
  windowMs : Nat
  max : Nat
deriving DecidableEq, Repr

/-- The tight limiter on the issuance endpoints: 5 requests per 15 minutes. -/
def authLimiter : RateLimitConfig := { windowMs := 15 * 60 * 1000, max := 5 }

/-- The loose limiter on the protected MCP endpoint: 100 requests per minute. -/
def mcpLimiter : RateLimitConfig := { windowMs := 60 * 1000, max := 100 }

/-- The general limiter applied to every route: 100 requests per 15 minutes. -/
def generalLimiter : RateLimitConfig := { windowMs := 15 * 60 * 1000, max := 100 }

/-- Per-key counter state of a fixed-window limiter. -/
structure WindowState where
  totalHits : Nat
  windowStart : Nat
deriving DecidableEq, Repr

/-- One request at time `t` against a fixed-window limiter: the counter resets
once the window has elapsed, and the request is allowed while the hit count
stays within `max`. -/
def rateLimitStep (cfg : RateLimitConfig) (s : Option WindowState) (t : Nat) :
    WindowState × Bool :=
  match s with
  | none => ({ totalHits := 1, windowStart := t }, decide (1 ≤ cfg.max))
  | some w =>
    if w.windowStart + cfg.windowMs ≤ t then
      ({ totalHits := 1, windowStart := t }, decide (1 ≤ cfg.max))
    else
      ({ totalHits := w.totalHits + 1, windowStart := w.windowStart },
        decide (w.totalHits + 1 ≤ cfg.max))

/-- A sequence of requests at the given times from one key against a limiter,
returning the final counter state and the per-request allow/deny decisions. -/
def rateLimitRun (cfg : RateLimitConfig) (ts : List Nat) :
    Option WindowState × List Bool :=
  ts.foldl
    (fun acc t =>
      let r := rateLimitStep cfg acc.1 t
      (some r.1, acc.2 ++ [r.2]))
    (none, [])

/-- The middleware kinds `startServer` registers. -/
inductive Middleware
  | jsonBody
  | generalLimiter
  | logDiscoveryAccess
  | discoveryHeaders
  | cors
  | authLimiter
  | mcpLimiter
  | evmAuth
deriving DecidableEq, Repr

/-- Middleware chain ahead of the POST /auth handler, in registration order. -/
def authRouteMiddleware : List Middleware :=
  [.jsonBody, .generalLimiter, .logDiscoveryAccess, .discoveryHeaders, .cors, .authLimiter]

/-- Middleware chain ahead of the POST /auth/refresh handler: the route is
registered with no route-specific limiter. -/
def refreshRouteMiddleware : List Middleware :=
  [.jsonBody, .generalLimiter, .logDiscoveryAccess, .discoveryHeaders, .cors]

/-- Middleware chain ahead of the POST /auth/dynamic handler. -/
def dynamicAuthRouteMiddleware : List Middleware :=
  [.jsonBody, .generalLimiter, .logDiscoveryAccess, .discoveryHeaders, .cors, .authLimiter]

/-- Middleware chain ahead of the POST /auth/revoke handler. -/
def revokeRouteMiddleware : List Middleware :=
  [.jsonBody, .generalLimiter, .logDiscoveryAccess, .discoveryHeaders, .cors, .evmAuth]

/-- Middleware chain ahead of the /mcp handler. -/
def mcpRouteMiddleware : List Middleware :=
  [.jsonBody, .generalLimiter, .logDiscoveryAccess, .discoveryHeaders, .cors,
   .mcpLimiter, .evmAuth]

/-- Well-formedness of the token-manager state: every store entry's key token
carries exactly the stored `jti` as its claim, and every stored `jti` lies
below the next fresh value.  The empty state satisfies it and both issuance
and refresh preserve it. -/
def StoreWF (st : TMState) : Prop :=
  ∀ e ∈ st.refreshTokenStore, e.1.jti = some e.2.jti ∧ e.2.jti < st.nextJti

instance (st : TMState) : Decidable (StoreWF st) := by
  unfold StoreWF
  exact List.decidableBAll _ _

/-- The empty token-manager state. -/
def demoSt0 : TMState := { refreshTokenStore := [], tokenBlacklist := [], nextJti := 0 }

/-- A concrete static issuance from the empty state at time 0. -/
def demoIssue : TokenPair × TMState :=
  issueTokenPair defaultTokenConfig "0xabc" 1 "s" {} 0 demoSt0

/-- The pair minted by refreshing `demoIssue`'s refresh token at time 10. -/
def demoPair2 : TokenPair :=
  { accessToken :=
      { sub := "0xabc", tokenId := 1, jti := some 1, type := .access, iat := 10,
        exp := 910, contract := none, issuedFor := none, secret := "s" },
    refreshToken :=
      { sub := "0xabc", tokenId := 1, jti := some 1, type := .refresh, iat := 10,
        exp := 604810, contract := none, issuedFor := none, secret := "s" },
    accessTokenExp := 910, refreshTokenExp := 604810, jti := 1 }

/-- `demoIssue`'s state with the issued `jti` blacklisted but the session
record still present (the internal inconsistency handled by the revoked
branch of `refreshAccessToken`). -/
def demoRevokedSt : TMState :=
  { refreshTokenStore := demoIssue.2.refreshTokenStore, tokenBlacklist := [0], nextJti := 1 }

/-- A syntactically well-formed wallet address. -/
def demoAddr : String := "0xaaaaaaaaaaaaaaaaaaaaaaaaaaaaaaaaaaaaaaaa"

/-- A syntactically well-formed contract address. -/
def demoContract : String := "0xbbbbbbbbbbbbbbbbbbbbbbbbbbbbbbbbbbbbbbbb"

/-- A concrete dynamic issuance: wallet `demoAddr`, contract `demoContract`,
token id 42, against an oracle reporting balance 1. -/
def demoDynIssue : Except DynamicIssueError IssueResponse × TMState :=
  issueDynamicJwt (fun _ _ _ => Except.ok 1)
    { wallet := demoAddr, contract := demoContract, tokenId := 42 }
    "s" defaultTokenConfig 0 demoSt0

/-- The refresh token minted by `demoDynIssue`. -/
def demoDynRefreshTok : Token :=
  { sub := demoAddr, tokenId := 42, jti := some 0, type := .refresh, iat := 0,
    exp := 604800, contract := some demoContract,
    issuedFor := some "Starbucks Premium MCP", secret := "s" }

/-- The access token minted by `demoDynIssue`. -/
def demoDynAccessTok : Token :=
  { sub := demoAddr, tokenId := 42, jti := some 0, type := .access, iat := 0,
    exp := 900, contract := some demoContract,
    issuedFor := some "Starbucks Premium MCP", secret := "s" }

/-- The pair minted by refreshing `demoDynIssue`'s refresh token at time 10:
its tokens carry no `contract` claim. -/
def demoDynPair2 : TokenPair :=
  { accessToken :=
      { sub := demoAddr, tokenId := 42, jti := some 1, type := .access, iat := 10,
        exp := 910, contract := none, issuedFor := none, secret := "s" },
    refreshToken :=
      { sub := demoAddr, tokenId := 42, jti := some 1, type := .refresh, iat := 10,
        exp := 604810, contract := none, issuedFor := none, secret := "s" },
    accessTokenExp := 910, refreshTokenExp := 604810, jti := 1 }

/-- The session record created by `demoDynIssue`. -/
def demoDynRecord : RefreshTokenData :=
  { address := demoAddr, tokenId := 42, jti := 0, createdAt := 0 }

/-! ### Helper lemmas -/

theorem jwtVerify_none_of (t : Token) (s : String) (now : Nat)
    (h1 : t.secret = s) (h2 : now < t.exp) : jwtVerify t s now = none := by
  unfold jwtVerify
  rw [if_neg (by simp [h1]), if_neg (by omega)]

theorem jwtVerify_expired (t : Token) (s : String) (now : Nat)
    (h1 : t.secret = s) (h2 : t.exp ≤ now) :
    jwtVerify t s now = some VerifyError.tokenExpired := by
  unfold jwtVerify
  rw [if_neg (by simp [h1]), if_pos h2]

theorem jwtVerify_none_elim (t : Token) (s : String) (now : Nat)
    (h : jwtVerify t s now = none) : t.secret = s ∧ now < t.exp := by
  unfold jwtVerify at h
  by_cases h1 : t.secret = s
  · by_cases h2 : t.exp ≤ now
    · rw [if_neg (by simp [h1]), if_pos h2] at h
      simp at h
    · exact ⟨h1, by omega⟩
  · rw [if_pos h1] at h
    simp at h

theorem storeGet_storeDelete_self (store : List (Token × RefreshTokenData)) (k : Token) :
    storeGet (storeDelete store k) k = none := by
  induction store with
  | nil => rfl
  | cons e rest ih =>
    by_cases h : e.1 = k
    · simp only [storeDelete, if_pos h]
      exact ih
    · simp only [storeDelete, if_neg h, storeGet]
      exact ih

theorem storeGet_storeDelete_ne (store : List (Token × RefreshTokenData)) (k k2 : Token)
    (h : k ≠ k2) : storeGet (storeDelete store k) k2 = storeGet store k2 := by
  induction store with
  | nil => rfl
  | cons e rest ih =>
    by_cases he : e.1 = k
    · simp only [storeDelete, if_pos he, storeGet]
      rw [if_neg (by rw [he]; exact h), ih]
    · simp only [storeDelete, if_neg he, storeGet]
      by_cases he2 : e.1 = k2
      · rw [if_pos he2, if_pos he2]
      · rw [if_neg he2, if_neg he2, ih]

theorem storeGet_mem (store : List (Token × RefreshTokenData)) (k : Token)
    (d : RefreshTokenData) (h : storeGet store k = some d) : (k, d) ∈ store := by
  induction store with
  | nil => simp [storeGet] at h
  | cons e rest ih =>
    unfold storeGet at h
    by_cases he : e.1 = k
    · rw [if_pos he] at h
      have hd : e.2 = d := Option.some.inj h
      have : e = (k, d) := Prod.ext he hd
      rw [← this]
      exact List.mem_cons_self e rest
    · rw [if_neg he] at h
      exact List.mem_cons_of_mem _ (ih h)

theorem refresh_expired_any_state (r : Token) (s : String) (cfg : TokenConfig)
    (now : Nat) (st : TMState) (hsec : r.secret = s) (hge : r.exp ≤ now) :
    (refreshAccessToken r s cfg now st).1 = Except.error RefreshError.tokenExpired := by
  unfold refreshAccessToken
  rw [jwtVerify_expired r s now hsec hge]

theorem refresh_notFound (r : Token) (s : String) (cfg : TokenConfig) (now : Nat)
    (st : TMState) (hsec : r.secret = s) (hlt : now < r.exp)
    (ht : r.type = TokenType.refresh) (hg : storeGet st.refreshTokenStore r = none) :
    (refreshAccessToken r s cfg now st).1 = Except.error RefreshError.refreshTokenNotFound := by
  unfold refreshAccessToken
  rw [jwtVerify_none_of r s now hsec hlt, if_neg (by simp [ht]), hg]

/-! ### Claim theorems -/

/-- C3: the authorization gate rejects every presented credential whose kind
is not access (in particular every refresh credential), whatever its
signature, expiry, revocation status or embedded claims: the request is
never admitted to the protected resource. -/
theorem gate_rejects_refresh_kind (t : Token) (jwtSecret : String)
    (requiredTokenId : Int) (st : TMState) (now : Nat)
    (h : t.type ≠ TokenType.access) :
    isAdmitted (evmAuthMiddleware (some t) jwtSecret requiredTokenId st now) = false := by
  simp only [evmAuthMiddleware]
  cases hv : jwtVerify t jwtSecret now with
  | some e => cases e <;> rfl
  | none =>
    rw [if_pos h]
    rfl

/-- Witness for C3: the refresh token of a concrete, otherwise fully valid
issuance is rejected by the gate. -/
theorem gate_rejects_refresh_kind_witness :
    isAdmitted (evmAuthMiddleware (some demoIssue.1.refreshToken) "s" 1 demoIssue.2 10)
      = false :=
  gate_rejects_refresh_kind demoIssue.1.refreshToken "s" 1 demoIssue.2 10 (by decide)

/-- C4: requirement-check asymmetry of the gate.  A verified, unexpired,
non-revoked access credential carrying a (truthy) contract claim is admitted
for every process-wide required token id, with no re-check of its token id;
one carrying no contract claim is admitted exactly when its embedded token id
equals the required token id, and otherwise rejected with the invalid-token-id
reason. -/
theorem gate_requirement_asymmetry (t : Token) (jwtSecret : String) (st : TMState)
    (now : Nat) (hsec : t.secret = jwtSecret) (hexp : now < t.exp)
    (hacc : t.type = TokenType.access) (hrev : jtiRevoked t.jti st = false) :
    (truthyStr t.contract = true →
      ∀ requiredTokenId : Int,
        evmAuthMiddleware (some t) jwtSecret requiredTokenId st now
          = GateResult.admitted t) ∧
    (t.contract = none →
      ∀ requiredTokenId : Int,
        (t.tokenId = requiredTokenId →
          evmAuthMiddleware (some t) jwtSecret requiredTokenId st now
            = GateResult.admitted t) ∧
        (t.tokenId ≠ requiredTokenId →
          evmAuthMiddleware (some t) jwtSecret requiredTokenId st now
            = GateResult.rejected 401 "Invalid tokenId in JWT")) := by
  have hv : jwtVerify t jwtSecret now = none := jwtVerify_none_of t jwtSecret now hsec hexp
  constructor
  · intro hc requiredTokenId
    simp only [evmAuthMiddleware]
    rw [hv]
    simp [hacc, hrev, hc]
  · intro hc requiredTokenId
    constructor
    · intro hid
      simp only [evmAuthMiddleware]
      rw [hv]
      simp [hacc, hrev, hc, truthyStr, hid]
    · intro hid
      simp only [evmAuthMiddleware]
      rw [hv]
      simp [hacc, hrev, hc, truthyStr, hid]

/-- Witness for C4: the dynamically issued access token, whose embedded token
id 42 differs from the required token id 999, is admitted purely because it
carries a contract claim. -/
theorem gate_requirement_asymmetry_witness :
    evmAuthMiddleware (some demoDynAccessTok) "s" 999 demoDynIssue.2 10
      = GateResult.admitted demoDynAccessTok :=
  (gate_requirement_asymmetry demoDynAccessTok "s" demoDynIssue.2 10 rfl (by decide)
      rfl (by decide)).1 (by decide) 999

/-- C7: expiry boundary of the gate.  An otherwise-valid access credential
(correct signature, access kind, not revoked, requirement satisfied) is
admitted at every instant strictly before its expiry and rejected with the
distinct expired-credential reason at or after its expiry instant. -/
theorem gate_expiry_boundary (t : Token) (jwtSecret : String) (requiredTokenId : Int)
    (st : TMState) (hsec : t.secret = jwtSecret) (hacc : t.type = TokenType.access)
    (hrev : jtiRevoked t.jti st = false)
    (hreq : truthyStr t.contract = true ∨ t.tokenId = requiredTokenId) :
    ∀ now : Nat,
      (now < t.exp →
        evmAuthMiddleware (some t) jwtSecret requiredTokenId st now
          = GateResult.admitted t) ∧
      (t.exp ≤ now →
        evmAuthMiddleware (some t) jwtSecret requiredTokenId st now
          = GateResult.rejected 401 "Token expired") := by
  intro now
  constructor
  · intro hlt
    simp only [evmAuthMiddleware]
    rw [jwtVerify_none_of t jwtSecret now hsec hlt]
    rcases hreq with hc | hid
    · simp [hacc, hrev, hc]
    · cases hc2 : truthyStr t.contract <;> simp [hacc, hrev, hc2, hid]
  · intro hge
    simp only [evmAuthMiddleware]
    rw [jwtVerify_expired t jwtSecret now hsec hge]

/-- Witness for C7: the concrete issued access token (expiry 900) is rejected
as expired when presented exactly at its expiry instant. -/
theorem gate_expiry_boundary_witness :
    evmAuthMiddleware (some demoIssue.1.accessToken) "s" 1 demoIssue.2 900
      = GateResult.rejected 401 "Token expired" :=
  ((gate_expiry_boundary demoIssue.1.accessToken "s" 1 demoIssue.2 (by decide) (by decide)
      (by decide) (Or.inr (by decide))) 900).2 (by decide)

/-- C5: whenever the oracle reports a positive balance, static issuance
succeeds and returns a pair whose access and refresh tokens share the fresh
`jti`, with the access expiry strictly below the refresh expiry (given the
configured access TTL is below the refresh TTL, as in the 15m/7d defaults);
moreover every pair minted by `issueTokenPair` — the single minting routine
both the static and the dynamic issuer call — shares its `jti` across the
two tokens and orders the expiries the same way. -/
theorem issueStatic_success_pair_invariant
    (balanceOf : String → Int → Except OracleError Nat) (address : String)
    (requiredTokenId : Int) (jwtSecret : String) (cfg : TokenConfig) (now : Nat)
    (st : TMState) (b : Nat) (hb : balanceOf address requiredTokenId = Except.ok b)
    (hpos : 0 < b) (httl : cfg.accessTtl < cfg.refreshTtl) :
    (∃ resp st2,
      issueJwt balanceOf address requiredTokenId jwtSecret cfg now st
          = (Except.ok resp, st2) ∧
      resp.accessToken.jti = some st.nextJti ∧ resp.refreshToken.jti = some st.nextJti ∧
      resp.accessToken.exp < resp.refreshToken.exp) ∧
    (∀ (a : String) (tid : Int) (s : String) (ac : AdditionalClaims) (n : Nat)
        (st0 : TMState),
      (issueTokenPair cfg a tid s ac n st0).1.accessToken.jti
          = (issueTokenPair cfg a tid s ac n st0).1.refreshToken.jti ∧
      (issueTokenPair cfg a tid s ac n st0).1.accessToken.exp
          < (issueTokenPair cfg a tid s ac n st0).1.refreshToken.exp) := by
  constructor
  · have hb0 : ¬ b = 0 := by omega
    refine
      ⟨{ accessToken := (issueTokenPair cfg address requiredTokenId jwtSecret {} now st).1.accessToken,
         refreshToken := (issueTokenPair cfg address requiredTokenId jwtSecret {} now st).1.refreshToken,
         expiresIn := (issueTokenPair cfg address requiredTokenId jwtSecret {} now st).1.accessTokenExp,
         refreshExpiresIn := (issueTokenPair cfg address requiredTokenId jwtSecret {} now st).1.refreshTokenExp },
       (issueTokenPair cfg address requiredTokenId jwtSecret {} now st).2, ?_, ?_, ?_, ?_⟩
    · unfold issueJwt
      rw [hb]
      simp [hb0]
    · simp [issueTokenPair]
    · simp [issueTokenPair]
    · simp only [issueTokenPair]
      exact Nat.add_lt_add_left httl now
  · intro a tid s ac n st0
    constructor
    · simp [issueTokenPair]
    · simp only [issueTokenPair]
      exact Nat.add_lt_add_left httl n

/-- Witness for C5: a concrete issuance under the default TTLs against an
oracle reporting balance 1. -/
theorem issueStatic_success_pair_invariant_witness :
    (issueTokenPair defaultTokenConfig "0xabc" 1 "s" {} 0 demoSt0).1.accessToken.exp
      < (issueTokenPair defaultTokenConfig "0xabc" 1 "s" {} 0 demoSt0).1.refreshToken.exp :=
  ((issueStatic_success_pair_invariant (fun _ _ => Except.ok 1) "0xabc" 1 "s"
      defaultTokenConfig 0 demoSt0 1 rfl (by decide) (by decide)).2 "0xabc" 1 "s" {} 0
      demoSt0).2

/-- C6: when the oracle reports balance zero, static issuance fails with the
distinct ownership-not-satisfied outcome, and the state — in particular the
refresh-token store — is returned unchanged: no session record is created. -/
theorem issueStatic_zero_balance_no_record
    (balanceOf : String → Int → Except OracleError Nat) (address : String)
    (requiredTokenId : Int) (jwtSecret : String) (cfg : TokenConfig) (now : Nat)
    (st : TMState) (hb : balanceOf address requiredTokenId = Except.ok 0) :
    issueJwt balanceOf address requiredTokenId jwtSecret cfg now st
      = (Except.error (StaticIssueError.ownershipNotSatisfied address requiredTokenId), st) ∧
    (issueJwt balanceOf address requiredTokenId jwtSecret cfg now st).2.refreshTokenStore
      = st.refreshTokenStore := by
  have h1 : issueJwt balanceOf address requiredTokenId jwtSecret cfg now st
      = (Except.error (StaticIssueError.ownershipNotSatisfied address requiredTokenId), st) := by
    unfold issueJwt
    rw [hb]
    simp
  exact ⟨h1, by rw [h1]⟩

/-- Witness for C6: a concrete zero-balance issuance attempt from the empty
state leaves the state unchanged. -/
theorem issueStatic_zero_balance_no_record_witness :
    issueJwt (fun _ _ => Except.ok 0) "0xabc" 1 "s" defaultTokenConfig 0 demoSt0
      = (Except.error (StaticIssueError.ownershipNotSatisfied "0xabc" 1), demoSt0) :=
  (issueStatic_zero_balance_no_record (fun _ _ => Except.ok 0) "0xabc" 1 "s"
      defaultTokenConfig 0 demoSt0 rfl).1

/-- C8 counterexample: the static issuer performs no syntactic validation of
the supplied identity.  For the malformed identity "not-an-address" it does
not fail with any invalid-identity outcome before querying the oracle — with
an oracle reporting a positive balance it even succeeds, minting tokens for
the malformed subject. -/
theorem issueStatic_no_validation_cex :
    isAddress "not-an-address" = false ∧
    ((issueJwt (fun _ _ => Except.ok 1) "not-an-address" 1 "s" defaultTokenConfig 0
        demoSt0).1.map (fun resp => resp.accessToken.sub)
      = Except.ok "not-an-address") := by decide

/-- C8 (amended): only the dynamic issuer validates addresses.  For every
malformed wallet it fails with the invalid-wallet outcome independently of
the oracle (so before any oracle query), while the static issuer passes the
identity to the oracle unvalidated: whenever the oracle answers a positive
balance for a malformed identity, static issuance succeeds. -/
theorem address_validation_asymmetry (w : String) (hw : isAddress w = false) :
    (∀ (balanceOfOn : String → String → Int → Except OracleError Nat)
        (req : DynamicAuthRequest) (jwtSecret : String) (cfg : TokenConfig)
        (now : Nat) (st : TMState), req.wallet = w →
      issueDynamicJwt balanceOfOn req jwtSecret cfg now st
        = (Except.error DynamicIssueError.invalidWalletAddress, st)) ∧
    (∀ (balanceOf : String → Int → Except OracleError Nat) (requiredTokenId : Int)
        (jwtSecret : String) (cfg : TokenConfig) (now : Nat) (st : TMState) (b : Nat),
      balanceOf w requiredTokenId = Except.ok b → 0 < b →
      ∃ resp st2,
        issueJwt balanceOf w requiredTokenId jwtSecret cfg now st
          = (Except.ok resp, st2)) := by
  constructor
  · intro balanceOfOn req jwtSecret cfg now st hwr
    unfold issueDynamicJwt
    rw [hwr, hw]
    simp
  · intro balanceOf requiredTokenId jwtSecret cfg now st b hb hpos
    have hb0 : ¬ b = 0 := by omega
    refine
      ⟨{ accessToken := (issueTokenPair cfg w requiredTokenId jwtSecret {} now st).1.accessToken,
         refreshToken := (issueTokenPair cfg w requiredTokenId jwtSecret {} now st).1.refreshToken,
         expiresIn := (issueTokenPair cfg w requiredTokenId jwtSecret {} now st).1.accessTokenExp,
         refreshExpiresIn := (issueTokenPair cfg w requiredTokenId jwtSecret {} now st).1.refreshTokenExp },
       (issueTokenPair cfg w requiredTokenId jwtSecret {} now st).2, ?_⟩
    unfold issueJwt
    rw [hb]
    simp [hb0]

/-- Witness for C8 (amended): the dynamic issuer rejects the malformed wallet
"not-an-address" with the invalid-wallet outcome, state untouched. -/
theorem address_validation_asymmetry_witness :
    issueDynamicJwt (fun _ _ _ => Except.ok 1)
        { wallet := "not-an-address", contract := demoContract, tokenId := 1 }
        "s" defaultTokenConfig 0 demoSt0
      = (Except.error DynamicIssueError.invalidWalletAddress, demoSt0) :=
  (address_validation_asymmetry "not-an-address" (by decide)).1 (fun _ _ _ => Except.ok 1)
    { wallet := "not-an-address", contract := demoContract, tokenId := 1 }
    "s" defaultTokenConfig 0 demoSt0 rfl

/-- C9 counterexample: `startServer` registers the tight `authLimiter` on the
issuance routes /auth and /auth/dynamic but not on the refresh route
/auth/refresh, so refresh operations are not guarded by the
issuance-configured limiter. -/
theorem refresh_not_auth_limited_cex :
    Middleware.authLimiter ∈ authRouteMiddleware ∧
    Middleware.authLimiter ∈ dynamicAuthRouteMiddleware ∧
    Middleware.authLimiter ∉ refreshRouteMiddleware := by decide

/-- C9 (amended): the refresh route is guarded only by the application-wide
`generalLimiter` (fixed window of 15 minutes, 100 requests), not by the tight
`authLimiter` (fixed window of 15 minutes, 5 requests) that guards the two
issuance routes.  Under the general limiter the first 100 requests of a
window from one key are allowed and the 101st is rejected with the
rate-limited outcome; under the tight limiter the issuance routes allow 5
and reject the 6th. -/
theorem refresh_general_rate_limit :
    Middleware.authLimiter ∉ refreshRouteMiddleware ∧
    Middleware.generalLimiter ∈ refreshRouteMiddleware ∧
    Middleware.authLimiter ∈ authRouteMiddleware ∧
    Middleware.authLimiter ∈ dynamicAuthRouteMiddleware ∧
    (rateLimitRun generalLimiter (List.replicate 100 0)).2.all (fun b => b) = true ∧
    (rateLimitRun generalLimiter (List.replicate 101 0)).2.getLast? = some false ∧
    (rateLimitRun authLimiter (List.replicate 5 0)).2.all (fun b => b) = true ∧
    (rateLimitRun authLimiter (List.replicate 6 0)).2.getLast? = some false := by
  set_option maxRecDepth 4000 in decide

theorem refreshAccessToken_ok_elim (r : Token) (s : String) (cfg : TokenConfig)
    (now : Nat) (st : TMState) (pair : TokenPair)
    (h : (refreshAccessToken r s cfg now st).1 = Except.ok pair) :
    r.secret = s ∧ now < r.exp ∧ r.type = TokenType.refresh ∧
    ∃ d, storeGet st.refreshTokenStore r = some d ∧ d.jti ∉ st.tokenBlacklist ∧
      pair.jti = st.nextJti ∧
      pair.accessToken.jti = some st.nextJti ∧ pair.refreshToken.jti = some st.nextJti ∧
      pair.accessToken.sub = d.address ∧ pair.refreshToken.sub = d.address ∧
      pair.accessToken.tokenId = d.tokenId ∧ pair.refreshToken.tokenId = d.tokenId ∧
      pair.accessToken.contract = none ∧ pair.refreshToken.contract = none ∧
      (refreshAccessToken r s cfg now st).2.tokenBlacklist = d.jti :: st.tokenBlacklist ∧
      (refreshAccessToken r s cfg now st).2.refreshTokenStore
        = storeSet (storeDelete (st.refreshTokenStore.filter
              (fun e => decide (e.2.jti ≠ d.jti))) r)
            pair.refreshToken
            { address := d.address, tokenId := d.tokenId, jti := st.nextJti,
              createdAt := now } := by
  unfold refreshAccessToken at h
  split at h
  · simp at h
  · simp at h
  · rename_i hv
    obtain ⟨hsec, hexp⟩ := jwtVerify_none_elim r s now hv
    split at h
    · simp at h
    · rename_i htne
      have ht : r.type = TokenType.refresh := not_not.mp htne
      split at h
      · simp at h
      · rename_i d hg
        split at h
        · simp at h
        · rename_i hbl
          simp only [Except.ok.injEq] at h
          subst h
          refine ⟨hsec, hexp, ht, d, hg, hbl, ?_, ?_, ?_, ?_, ?_, ?_, ?_, ?_, ?_, ?_, ?_⟩
            <;> simp [refreshAccessToken, hv, ht, hg, hbl, issueTokenPair, revokeToken]

theorem refreshAccessToken_revoked_elim (r : Token) (s : String) (cfg : TokenConfig)
    (now : Nat) (st : TMState)
    (h : (refreshAccessToken r s cfg now st).1 = Except.error RefreshError.tokenRevoked) :
    r.secret = s ∧ now < r.exp ∧ r.type = TokenType.refresh ∧
    (refreshAccessToken r s cfg now st).2.refreshTokenStore
      = storeDelete st.refreshTokenStore r := by
  unfold refreshAccessToken at h
  split at h
  · simp at h
  · simp at h
  · rename_i hv
    obtain ⟨hsec, hexp⟩ := jwtVerify_none_elim r s now hv
    split at h
    · simp at h
    · rename_i htne
      have ht : r.type = TokenType.refresh := not_not.mp htne
      split at h
      · simp at h
      · rename_i d hg
        split at h
        · rename_i hbl
          refine ⟨hsec, hexp, ht, ?_⟩
          simp [refreshAccessToken, hv, ht, hg, hbl]
        · simp at h

/-- C1 (amended): rotation invariant.  After a successful `refresh(r)` the
old `jti` is in the revocation set and the new pair carries a fresh `jti`
different from the old one; a second call to `refresh(r)` never succeeds —
at any instant strictly before the expiry of `r` it fails with the
session-not-found outcome, and at or after that instant it fails with the
distinct expired-credential outcome. -/
theorem refresh_rotation (r : Token) (jwtSecret : String) (cfg : TokenConfig) (now : Nat)
    (st : TMState) (hwf : StoreWF st) (pair : TokenPair)
    (h : (refreshAccessToken r jwtSecret cfg now st).1 = Except.ok pair) :
    (∀ now2, r.exp ≤ now2 →
      (refreshAccessToken r jwtSecret cfg now2
          (refreshAccessToken r jwtSecret cfg now st).2).1
        = Except.error RefreshError.tokenExpired) ∧
    (∀ now2, now2 < r.exp →
      (refreshAccessToken r jwtSecret cfg now2
          (refreshAccessToken r jwtSecret cfg now st).2).1
        = Except.error RefreshError.refreshTokenNotFound) ∧
    (∀ d, storeGet st.refreshTokenStore r = some d →
      d.jti ∈ (refreshAccessToken r jwtSecret cfg now st).2.tokenBlacklist ∧
      pair.jti ≠ d.jti ∧ pair.accessToken.jti ≠ some d.jti ∧
      pair.refreshToken.jti ≠ some d.jti) := by
  obtain ⟨hsec, hexp, ht, d, hg, hbl, hjti, hajti, hrjti, hsub, hrsub, htid, hrtid, hac,
    hrc, hbl2, hstore⟩ := refreshAccessToken_ok_elim r jwtSecret cfg now st pair h
  have hmem := storeGet_mem _ _ _ hg
  have hdlt : d.jti < st.nextJti := (hwf _ hmem).2
  have hrj : r.jti = some d.jti := (hwf _ hmem).1
  have hrne : pair.refreshToken ≠ r := by
    intro hEq
    rw [← hEq, hrjti] at hrj
    exact absurd (Option.some.inj hrj) (by omega)
  have hlook : storeGet (refreshAccessToken r jwtSecret cfg now st).2.refreshTokenStore r
      = none := by
    rw [hstore]
    unfold storeSet
    simp only [storeGet]
    rw [if_neg hrne, storeGet_storeDelete_ne _ _ _ hrne, storeGet_storeDelete_self]
  refine ⟨?_, ?_, ?_⟩
  · intro now2 h2
    exact refresh_expired_any_state r jwtSecret cfg now2 _ hsec h2
  · intro now2 h2
    exact refresh_notFound r jwtSecret cfg now2 _ hsec h2 ht hlook
  · intro d2 hd2
    have hdd : d2 = d := by
      rw [hg] at hd2
      exact (Option.some.inj hd2).symm
    subst hdd
    refine ⟨?_, ?_, ?_, ?_⟩
    · rw [hbl2]
      exact List.mem_cons_self _ _
    · rw [hjti]
      omega
    · rw [hajti]
      intro hc
      exact absurd (Option.some.inj hc) (by omega)
    · rw [hrjti]
      intro hc
      exact absurd (Option.some.inj hc) (by omega)

/-- C1 counterexample: the claim as stated says any second `refresh(r)` after
a successful one fails with the session-not-found or revoked outcome; but a
second call made at or after the expiry of `r` itself (here at time 700000,
past the 604800-second expiry) fails with the expired-credential outcome
instead. -/
theorem refresh_rotation_cex :
    (refreshAccessToken demoIssue.1.refreshToken "s" defaultTokenConfig 10 demoIssue.2).1
      = Except.ok demoPair2 ∧
    (refreshAccessToken demoIssue.1.refreshToken "s" defaultTokenConfig 700000
        (refreshAccessToken demoIssue.1.refreshToken "s" defaultTokenConfig 10
          demoIssue.2).2).1
      = Except.error RefreshError.tokenExpired := by decide

/-- Witness for C1 (amended): the concrete second refresh, repeated at time
10, fails with the session-not-found outcome. -/
theorem refresh_rotation_witness :
    (refreshAccessToken demoIssue.1.refreshToken "s" defaultTokenConfig 10
        (refreshAccessToken demoIssue.1.refreshToken "s" defaultTokenConfig 10
          demoIssue.2).2).1
      = Except.error RefreshError.refreshTokenNotFound :=
  (refresh_rotation demoIssue.1.refreshToken "s" defaultTokenConfig 10 demoIssue.2
      (by decide) demoPair2 (by decide)).2.1 10 (by decide)

/-- C2 (amended): a successful refresh preserves the stored subject identity
and granted token id, and the two new tokens again share one `jti`; but the
new pair is minted with no additional claims, so the contract claim embedded
at dynamic issuance is not carried over: both new tokens carry no contract
claim. -/
theorem refresh_preserves_subject_drops_contract (r : Token) (jwtSecret : String)
    (cfg : TokenConfig) (now : Nat) (st : TMState) (pair : TokenPair)
    (h : (refreshAccessToken r jwtSecret cfg now st).1 = Except.ok pair) :
    ∀ d, storeGet st.refreshTokenStore r = some d →
      pair.accessToken.sub = d.address ∧ pair.refreshToken.sub = d.address ∧
      pair.accessToken.tokenId = d.tokenId ∧ pair.refreshToken.tokenId = d.tokenId ∧
      pair.accessToken.jti = pair.refreshToken.jti ∧
      pair.accessToken.contract = none ∧ pair.refreshToken.contract = none := by
  obtain ⟨_, _, _, d, hg, _, _, hajti, hrjti, hsub, hrsub, htid, hrtid, hac, hrc, _, _⟩ :=
    refreshAccessToken_ok_elim r jwtSecret cfg now st pair h
  intro d2 hd2
  have hdd : d2 = d := by
    rw [hg] at hd2
    exact (Option.some.inj hd2).symm
  subst hdd
  exact ⟨hsub, hrsub, htid, hrtid, by rw [hajti, hrjti], hac, hrc⟩

/-- C2 counterexample: the pair issued dynamically embeds the contract claim,
but refreshing its refresh credential succeeds with a new pair whose tokens
carry no contract claim — the granted requirement's contract component is
lost, contradicting the claim that the new pair carries the same granted
ownership requirement including the contract claim. -/
theorem refresh_drops_contract_cex :
    (demoDynIssue.1.map (fun resp => resp.accessToken.contract)
      = Except.ok (some demoContract)) ∧
    ((refreshAccessToken demoDynRefreshTok "s" defaultTokenConfig 10 demoDynIssue.2).1.map
        (fun p => (p.accessToken.contract, p.refreshToken.contract))
      = Except.ok (none, none)) := by decide

/-- Witness for C2 (amended): the refreshed dynamic pair keeps subject and
token id but carries no contract claim. -/
theorem refresh_preserves_subject_drops_contract_witness :
    demoDynPair2.accessToken.contract = none ∧ demoDynPair2.refreshToken.contract = none :=
  let hs := refresh_preserves_subject_drops_contract demoDynRefreshTok "s"
    defaultTokenConfig 10 demoDynIssue.2 demoDynPair2 (by decide) demoDynRecord (by decide)
  ⟨hs.2.2.2.2.2.1, hs.2.2.2.2.2.2⟩

/-- C10: when `refresh(r)` fails because the stored `jti` is blacklisted, the
session record for `r` is deleted as a side effect of the failed call, so an
immediately repeated `refresh(r)` fails with the session-not-found outcome
rather than the revoked outcome. -/
theorem revoked_refresh_deletes_record (r : Token) (jwtSecret : String)
    (cfg : TokenConfig) (now : Nat) (st : TMState)
    (h : (refreshAccessToken r jwtSecret cfg now st).1
      = Except.error RefreshError.tokenRevoked) :
    storeGet (refreshAccessToken r jwtSecret cfg now st).2.refreshTokenStore r = none ∧
    (refreshAccessToken r jwtSecret cfg now
        (refreshAccessToken r jwtSecret cfg now st).2).1
      = Except.error RefreshError.refreshTokenNotFound := by
  obtain ⟨hsec, hexp, ht, hstore⟩ :=
    refreshAccessToken_revoked_elim r jwtSecret cfg now st h
  have hlook : storeGet (refreshAccessToken r jwtSecret cfg now st).2.refreshTokenStore r
      = none := by
    rw [hstore]
    exact storeGet_storeDelete_self _ _
  exact ⟨hlook, refresh_notFound r jwtSecret cfg now _ hsec hexp ht hlook⟩

/-- Witness for C10: in the concrete inconsistent state the first refresh
fails with the revoked outcome and the immediately repeated refresh fails
with the session-not-found outcome. -/
theorem revoked_refresh_deletes_record_witness :
    (refreshAccessToken demoIssue.1.refreshToken "s" defaultTokenConfig 10
        (refreshAccessToken demoIssue.1.refreshToken "s" defaultTokenConfig 10
          demoRevokedSt).2).1
      = Except.error RefreshError.refreshTokenNotFound :=
  (revoked_refresh_deletes_record demoIssue.1.refreshToken "s" defaultTokenConfig 10
      demoRevokedSt (by decide)).2

end NANDA
